import Mathlib

/-!
Verification development for the polluSens serial frame-decoding engine
(`src/polluSensSerial.js`).  The file shallowly embeds the code of the
repository: the expression evaluator `evalSafe`, the frame scan loop inside
`startReadLoop`, the per-frame handler `handleFrame`, the `readNext` request
queue, the `disconnect` / `disconnectAndCleanup` session teardown, and the
descriptor-inheritance resolver `resolveInheritance` from `loadConfig`.
Machine integers are modelled as `Int`/`Nat` with explicit 32-bit wrapping
where JavaScript bitwise operators wrap; fallible evaluation is modelled
with `Except`.
-/

namespace PolluSens

/-- JavaScript values produced by formula evaluation over a byte window:
integer numbers (all values arising here are integral) and `undefined`
(produced by out-of-bounds array indexing). -/
inductive JSVal where
  | num : Int → JSVal
  | undefVal : JSVal
deriving DecidableEq, Repr

/-- ToUint32 coercion used by JavaScript bitwise operators: `undefined`
coerces through NaN to 0; an integer is reduced modulo 2^32. -/
def toUInt32Nat (v : JSVal) : Nat :=
  match v with
  | .undefVal => 0
  | .num i => (i % (2 ^ 32 : Int)).toNat

/-- Reinterpret a 32-bit pattern as a signed Int32, as JavaScript bitwise
operators return. -/
def ofInt32 (n : Nat) : Int :=
  if n < 2 ^ 31 then (n : Int) else (n : Int) - 2 ^ 32

/-- JavaScript `^` on two values (ToInt32 both, xor the 32-bit patterns). -/
def jsXor (a b : JSVal) : JSVal :=
  .num (ofInt32 (Nat.xor (toUInt32Nat a) (toUInt32Nat b)))

/-- JavaScript `&` on two values. -/
def jsAnd (a b : JSVal) : JSVal :=
  .num (ofInt32 (Nat.land (toUInt32Nat a) (toUInt32Nat b)))

/-- JavaScript `|` on two values. -/
def jsOr (a b : JSVal) : JSVal :=
  .num (ofInt32 (Nat.lor (toUInt32Nat a) (toUInt32Nat b)))

/-- JavaScript array indexing `arr[i]` with an integer index: negative or
out-of-range indices yield `undefined`. -/
def jsIndexI (arr : List Nat) (i : Int) : JSVal :=
  if i < 0 then .undefVal
  else
    match arr.get? i.toNat with
    | some b => .num b
    | none => .undefVal

/-- JavaScript array indexing with an arbitrary value index: an `undefined`
index never names an array element. -/
def jsIndex (arr : List Nat) (v : JSVal) : JSVal :=
  match v with
  | .undefVal => .undefVal
  | .num i => jsIndexI arr i

/-- Fragment of the C-like expression language accepted by `evalSafe`
(`src/polluSensSerial.js` line 136) that the configured formulas use:
integer literals, indexing an identifier with a subexpression, and the
bitwise xor/and/or operators.  A formula referencing an identifier that is
not a key of the evaluation context throws, as `Function` evaluation does
for an unresolvable identifier. -/
inductive Expr where
  | num : Int → Expr
  | idx : String → Expr → Expr
  | xor : Expr → Expr → Expr
  | band : Expr → Expr → Expr
  | bor : Expr → Expr → Expr
deriving DecidableEq, Repr

/-- Shallow embedding of `evalSafe(expr, context)`: the formula is evaluated
with exactly the context keys in scope, each bound to a byte array.  The
member expression `name[e]` resolves `name` first (throwing if it is not a
context key), then evaluates the index. -/
def evalExpr (ctx : List (String × List Nat)) : Expr → Except String JSVal
  | .num n => Except.ok (.num n)
  | .idx name e =>
    match ctx.find? (fun p => p.1 == name) with
    | none => Except.error (name ++ " is not defined")
    | some p => do
      let v ← evalExpr ctx e
      pure (jsIndex p.2 v)
  | .xor a b => do
    let va ← evalExpr ctx a
    let vb ← evalExpr ctx b
    pure (jsXor va vb)
  | .band a b => do
    let va ← evalExpr ctx a
    let vb ← evalExpr ctx b
    pure (jsAnd va vb)
  | .bor a b => do
    let va ← evalExpr ctx a
    let vb ← evalExpr ctx b
    pure (jsOr va vb)

/-- Parsed form of `frame.startByte` / `frame.endByte` after
`parseByteField`: the string `"none"`, a single byte, or a byte sequence. -/
inductive ByteMarker where
  | noneMark : ByteMarker
  | single : Nat → ByteMarker
  | seq : List Nat → ByteMarker
deriving DecidableEq, Repr

/-- Embedding of `bs.every((v, i) => slice[start + i] === v)` starting at a
given (possibly negative) base index. -/
def seqMatchesAt (slice : List Nat) (start : Int) : List Nat → Bool
  | [] => true
  | v :: rest => (jsIndexI slice start == JSVal.num v) && seqMatchesAt slice (start + 1) rest

/-- Embedding of `matchesStart` (`src/polluSensSerial.js` lines 174-176):
a byte-sequence marker compares elementwise from index 0; `"none"` always
matches; a single byte compares against `slice[0]`. -/
def matchesStart (m : ByteMarker) (slice : List Nat) : Bool :=
  match m with
  | .seq bs => seqMatchesAt slice 0 bs
  | .noneMark => true
  | .single b => jsIndexI slice 0 == JSVal.num b

/-- Embedding of `matchesEnd` (lines 178-182): a byte-sequence marker
compares elementwise from `frameLength - bs.length`; `"none"` always
matches; a single byte compares against `slice[frameLength - 1]`. -/
def matchesEnd (m : ByteMarker) (frameLength : Nat) (slice : List Nat) : Bool :=
  match m with
  | .noneMark => true
  | .seq bs => seqMatchesAt slice ((frameLength : Int) - bs.length) bs
  | .single b => jsIndexI slice ((frameLength : Int) - 1) == JSVal.num b

/-- A `data` field specification: either a bare expression or an object
`\x7b value: expression \x7d` (`typeof meta === 'object' ? meta.value : meta`,
line 145). -/
inductive FieldSpec where
  | plain : Expr → FieldSpec
  | wrapped : Expr → FieldSpec
deriving DecidableEq, Repr

/-- Expression carried by a field specification. -/
def FieldSpec.expr : FieldSpec → Expr
  | .plain e => e
  | .wrapped e => e

/-- Checksum formula pair of a descriptor. -/
structure ChecksumSpec where
  eval : Expr
  compare : Expr
deriving DecidableEq, Repr

/-- The part of a resolved sensor descriptor consumed by `startReadLoop`:
frame length, parsed start/end markers, checksum pair, and the ordered
field formulas. -/
structure RunCfg where
  frameLength : Nat
  startByte : ByteMarker
  endByte : ByteMarker
  checksum : ChecksumSpec
  dataFields : List (String × FieldSpec)
deriving DecidableEq, Repr

/-- Observable effects of the read loop: resolving a pending `readNext`
promise (identified by a request id) with a parsed mapping, invoking the
subscribed `onData` callback, and invoking the error callback through
`handleError`. -/
inductive Event where
  | resolved : Nat → List (String × JSVal) → Event
  | dataCb : List (String × JSVal) → Event
  | errorCb : String → Event
deriving DecidableEq, Repr

/-- Field extraction of `handleFrame` (lines 143-147): each declared field,
in declaration order, is evaluated against the window bound to the context
key `data`; an evaluation fault aborts the whole extraction. -/
def parseFields (cfg : RunCfg) (data : List Nat) : Except String (List (String × JSVal)) :=
  cfg.dataFields.mapM (fun p => do
    let v ← evalExpr [("data", data)] p.2.expr
    pure (p.1, v))

/-- Embedding of `handleFrame` (lines 139-162).  The checksum pair is
evaluated against the window under the context key `data`; on equality the
fields are extracted, then the oldest pending `readNext` request (if any)
is resolved with the parsed mapping, then `onData` is invoked with the same
mapping.  Returns the validity flag, the updated request queue and the
emitted events; a formula-evaluation fault propagates as an exception. -/
def handleFrame (cfg : RunCfg) (queue : List Nat) (data : List Nat) :
    Except String (Bool × List Nat × List Event) := do
  let a ← evalExpr [("data", data)] cfg.checksum.eval
  let b ← evalExpr [("data", data)] cfg.checksum.compare
  if a = b then
    let parsed ← parseFields cfg data
    match queue with
    | [] => pure (true, [], [Event.dataCb parsed])
    | r :: rs => pure (true, rs, [Event.resolved r parsed, Event.dataCb parsed])
  else
    pure (false, queue, [])

/-- Mutable per-session state touched by the read loop: the decode buffer
and the pending `readNext` request queue. -/
structure SessionState where
  buffer : List Nat
  readQueue : List Nat
deriving DecidableEq, Repr

/-- Outcome of scanning the buffer: normal completion, an uncaught
exception escaping the scan (carrying the state at the throw point), or
fuel exhaustion (the JavaScript loop would still be running). -/
inductive ScanResult where
  | ok : SessionState → List Event → ScanResult
  | threw : String → SessionState → List Event → ScanResult
  | fuelOut : SessionState → List Event → ScanResult
deriving DecidableEq, Repr

/-- Prepend already-emitted events to a scan outcome. -/
def ScanResult.withEvents (evs : List Event) : ScanResult → ScanResult
  | .ok st e => .ok st (evs ++ e)
  | .threw m st e => .threw m st (evs ++ e)
  | .fuelOut st e => .fuelOut st (evs ++ e)

/-- Combined start/end marker test applied to a candidate window. -/
def windowMatches (cfg : RunCfg) (slice : List Nat) : Bool :=
  matchesStart cfg.startByte slice && matchesEnd cfg.endByte cfg.frameLength slice

/-- Embedding of the inner `while (this.buffer.length >= frameLength)` scan
loop (lines 171-193), with an explicit fuel parameter standing for the
number of remaining iterations.  While the buffer holds at least
`frameLength` bytes: take the leading window; if both markers match, remove
`frameLength` bytes and run `handleFrame` (a false result reports
"Checksum failed"); otherwise shift exactly one leading byte. -/
def scanLoop (cfg : RunCfg) : Nat → List Nat → List Nat → ScanResult
  | 0, buffer, queue => .fuelOut ⟨buffer, queue⟩ []
  | fuel + 1, buffer, queue =>
    if cfg.frameLength ≤ buffer.length then
      let slice := buffer.take cfg.frameLength
      if windowMatches cfg slice then
        let rest := buffer.drop cfg.frameLength
        match handleFrame cfg queue slice with
        | .error m => .threw m ⟨rest, queue⟩ []
        | .ok (true, q2, evs) => (scanLoop cfg fuel rest q2).withEvents evs
        | .ok (false, q2, evs) =>
          (scanLoop cfg fuel rest q2).withEvents (evs ++ [Event.errorCb "Checksum failed"])
      else
        scanLoop cfg fuel (buffer.drop 1) queue
    else
      .ok ⟨buffer, queue⟩ []

/-- How one execution of the outer read loop ended: clean end-of-stream
(`done` became true), termination through the catch-all handler after an
uncaught exception, or divergence of the inner scan. -/
inductive LoopEnd where
  | eos : LoopEnd
  | errored : String → LoopEnd
  | diverged : LoopEnd
deriving DecidableEq, Repr

/-- Result of running the read loop over a finite chunk sequence. -/
structure RunResult where
  state : SessionState
  events : List Event
  ended : LoopEnd
deriving DecidableEq, Repr

/-- Embedding of the outer `loop` of `startReadLoop` (lines 164-198) on a
finite sequence of chunks delivered by `reader.read()`: each chunk is
appended to the buffer and the inner scan runs to completion; an exception
escaping the scan is caught by the surrounding `try`, reported as
"Read loop error: …" through `handleError`, and terminates the loop, so
later chunks are never processed. -/
def runLoop (cfg : RunCfg) : SessionState → List (List Nat) → RunResult
  | st, [] => ⟨st, [], .eos⟩
  | st, chunk :: rest =>
    let buf := st.buffer ++ chunk
    match scanLoop cfg (buf.length + 1) buf st.readQueue with
    | .ok st2 evs =>
      let r := runLoop cfg st2 rest
      ⟨r.state, evs ++ r.events, r.ended⟩
    | .threw m st2 evs =>
      ⟨st2, evs ++ [Event.errorCb ("Read loop error: " ++ m)], .errored m⟩
    | .fuelOut st2 evs => ⟨st2, evs, .diverged⟩

/-- Embedding of `readNext` (lines 122-126): registering a one-shot request
pushes its resolver at the back of the queue. -/
def readNext (st : SessionState) (reqId : Nat) : SessionState :=
  ⟨st.buffer, st.readQueue ++ [reqId]⟩

/-- Parsed mappings delivered to the subscribed per-frame callback, in
delivery order. -/
def deliveredReadings (r : RunResult) : List (List (String × JSVal)) :=
  r.events.filterMap (fun e =>
    match e with
    | .dataCb p => some p
    | _ => none)

/-- Session-owned resources and state as held on a `PolluSens` instance:
whether the transport port and reader are held, whether the periodic
command timer is armed, the decode buffer, the pending request queue, and
which callbacks are registered. -/
structure Session where
  portOpen : Bool
  readerHeld : Bool
  commandInterval : Bool
  buffer : List Nat
  readQueue : List Nat
  onDataSet : Bool
  onRawFrameSet : Bool
  onErrorSet : Bool
deriving DecidableEq, Repr

/-- Embedding of the instance method `disconnect` (lines 75-93 and 407-425):
clear the periodic command interval, cancel and null the reader, close and
null the port.  The decode buffer and the request queue are not touched
here. -/
def disconnect (s : Session) : Session :=
  { s with commandInterval := false, readerHeld := false, portOpen := false }

/-- Embedding of the static `disconnectAndCleanup` (lines 317-325): run
`disconnect`, then unregister the three callbacks and reset the request
queue and the decode buffer to empty. -/
def disconnectAndCleanup (s : Session) : Session :=
  let s2 := disconnect s
  { s2 with
      onDataSet := false
      onRawFrameSet := false
      onErrorSet := false
      readQueue := []
      buffer := [] }

/-- Raw sensor entry as authored in the descriptor document, as far as the
inheritance resolver observes it.  `α` is the (opaque) type of JSON values
held in the scalar fields and sub-objects; a missing `name` is the empty
string (falsy); missing sub-objects are empty key lists, which merge
exactly like `\x7b\x7d` does under object spread. -/
structure RawSensor (α : Type) where
  name : String
  inherits_from : Option String
  command : Option α
  send_cmd_period : Option α
  port : List (String × α)
  frame : List (String × α)
  checksum : List (String × α)
  data : List (String × α)
deriving DecidableEq, Repr

/-- JavaScript object property lookup on a key list. -/
def jlookup {α : Type} (l : List (String × α)) (k : String) : Option α :=
  (l.find? (fun p => p.1 == k)).map (fun p => p.2)

/-- Object spread merge `\x7b ...base, ...child \x7d`: the base keys keep
their order but a key also present in the child takes the child value;
child keys absent from the base are appended in child order. -/
def spreadMerge {α : Type} (base child : List (String × α)) : List (String × α) :=
  base.map (fun p => (p.1, (jlookup child p.1).getD p.2))
  ++ child.filter (fun p => (jlookup base p.1).isNone)

/-- The merged object literal built by `resolveInheritance` (lines 45-53):
`command` and `send_cmd_period` use `??` against the resolved base;
`port`, `frame`, `checksum` and `data` are shallow spread merges; the
literal carries no `inherits_from` key. -/
def mergeSensor {α : Type} (sensor resolvedBase : RawSensor α) : RawSensor α :=
  { name := sensor.name
  , inherits_from := none
  , command := sensor.command.or resolvedBase.command
  , send_cmd_period := sensor.send_cmd_period.or resolvedBase.send_cmd_period
  , port := spreadMerge resolvedBase.port sensor.port
  , frame := spreadMerge resolvedBase.frame sensor.frame
  , checksum := spreadMerge resolvedBase.checksum sensor.checksum
  , data := spreadMerge resolvedBase.data sensor.data }

/-- The `nameMap` built by `loadConfig` (lines 27-28): every entry with a
truthy name is stored under its name, later entries overwriting earlier
ones. -/
def buildNameMap {α : Type} (raws : List (RawSensor α)) (k : String) : Option (RawSensor α) :=
  ((raws.filter (fun s => s.name != "")).reverse).find? (fun s => s.name == k)

/-- Diagnostic emitted on an inheritance cycle
(`console.warn("Circular inheritance:", joined stack names separated by " -> ")`). -/
def circularWarn (names : List String) : String :=
  "Circular inheritance: " ++ String.intercalate " -> " names

/-- Diagnostic emitted when a base name has no entry
(`console.warn("Base sensor not found:", sensor.inherits_from)`). -/
def missingBaseWarn (b : String) : String :=
  "Base sensor not found: " ++ b

/-- Embedding of `resolveInheritance` (lines 30-54) with an explicit fuel
bound on the recursion depth (`none` overall means the bound was hit, or
the dead branch where a map-supplied base resolves to `null` — impossible
because `nameMap` only holds entries with truthy names).  The result pair
is the resolved entry (or `none` for a nameless entry) together with the
emitted diagnostics.  Branch order follows the source: nameless entries
resolve to `null`; entries without `inherits_from` are returned as-is; a
name already on the ancestor stack returns the raw entry with a cycle
diagnostic; a missing base returns the raw entry with a diagnostic;
otherwise the recursively resolved base is merged under the entry. -/
def resolveInheritance {α : Type} (raws : List (RawSensor α)) :
    Nat → RawSensor α → List String → Option (Option (RawSensor α) × List String)
  | 0, _, _ => none
  | fuel + 1, sensor, stack =>
    if sensor.name = "" then some (none, [])
    else
      match sensor.inherits_from with
      | none => some (some sensor, [])
      | some baseName =>
        if sensor.name ∈ stack then
          some (some sensor, [circularWarn (stack ++ [sensor.name])])
        else
          match buildNameMap raws baseName with
          | none => some (some sensor, [missingBaseWarn baseName])
          | some base =>
            match resolveInheritance raws fuel base (stack ++ [sensor.name]) with
            | none => none
            | some (none, _) => none
            | some (some rb, warns) => some (some (mergeSensor sensor rb), warns)

/-- One resolution pass of `loadConfig` over the raw entries
(`rawSensors.map(resolveInheritance).filter(Boolean)`, line 56), collecting
the diagnostics; each entry is resolved with fuel `raws.length + 1`, which
bounds the depth of any acyclic-prefix chain through the name map. -/
def resolveAll {α : Type} (raws : List (RawSensor α)) :
    List (RawSensor α) → Option (List (RawSensor α) × List String)
  | [] => some ([], [])
  | s :: rest =>
    match resolveInheritance raws (raws.length + 1) s [] with
    | none => none
    | some (r?, warns) =>
      match resolveAll raws rest with
      | none => none
      | some (others, warns2) =>
        some ((match r? with
               | some r => [r]
               | none => []) ++ others, warns ++ warns2)

/-- The full resolution pass: every raw entry resolved against the name
map built from the same list. -/
def loadConfigResolve {α : Type} (raws : List (RawSensor α)) :
    Option (List (RawSensor α) × List String) :=
  resolveAll raws raws

/-- Decidable form of frame validity: both checksum formulas evaluate
without fault and yield equal results. -/
def checksumPasses (cfg : RunCfg) (f : List Nat) : Bool :=
  match evalExpr [("data", f)] cfg.checksum.eval, evalExpr [("data", f)] cfg.checksum.compare with
  | .ok a, .ok b => a == b
  | _, _ => false

/-- Expected event trace for a run of valid frames against a pending
request queue: each frame resolves the oldest pending request (when one
exists) with its parsed mapping and then invokes the data callback with
the same mapping, in frame order. -/
def fifoEvents : List Nat → List (List (String × JSVal)) → List Event
  | _, [] => []
  | [], p :: ps => Event.dataCb p :: fifoEvents [] ps
  | r :: rs, p :: ps => Event.resolved r p :: Event.dataCb p :: fifoEvents rs ps

/-- Descriptor of the §8 scenario exactly as the spec words it: frame
length 5, start byte 0xAA, no end marker, checksum eval `window[4]`,
compare `window[0]^window[1]^window[2]^window[3]`, data temp = `window[1]`. -/
def cfgWindow : RunCfg :=
  { frameLength := 5
  , startByte := .single 0xAA
  , endByte := .noneMark
  , checksum :=
      { eval := .idx "window" (.num 4)
      , compare :=
          .xor (.xor (.xor (.idx "window" (.num 0)) (.idx "window" (.num 1)))
            (.idx "window" (.num 2))) (.idx "window" (.num 3)) }
  , dataFields := [("temp", .plain (.idx "window" (.num 1)))] }

/-- The §8 scenario descriptor repaired so that it behaves as the scenario
intends on the code: the byte window is addressed through the context key
`data`, and the compare formula xors the three payload bytes
`data[1]^data[2]^data[3]` (the start byte 0xAA takes part in the window,
so including `data[0]` cannot reproduce the documented 0x10 result). -/
def cfgData : RunCfg :=
  { frameLength := 5
  , startByte := .single 0xAA
  , endByte := .noneMark
  , checksum :=
      { eval := .idx "data" (.num 4)
      , compare := .xor (.xor (.idx "data" (.num 1)) (.idx "data" (.num 2))) (.idx "data" (.num 3)) }
  , dataFields := [("temp", .plain (.idx "data" (.num 1)))] }

/-- The §8 scenario input stream AA 10 00 00 10 FF AA 05 00 00 05. -/
def streamC2 : List Nat := [0xAA, 0x10, 0, 0, 0x10, 0xFF, 0xAA, 0x05, 0, 0, 0x05]

/-- Descriptor whose checksum eval formula throws on every use: it
references an identifier that is not a context key. -/
def cfgFault : RunCfg :=
  { frameLength := 2
  , startByte := .single 0xAA
  , endByte := .noneMark
  , checksum := { eval := .idx "oops" (.num 0), compare := .num 0 }
  , dataFields := [] }

/-- Raw entry `a`, half of a two-entry inheritance cycle, with no fields of
its own. -/
def entCycleA : RawSensor String := ⟨"a", some "b", none, none, [], [], [], []⟩

/-- Raw entry `b`, the other half of the cycle, declaring one data field. -/
def entCycleB : RawSensor String := ⟨"b", some "a", none, none, [], [], [], [("x", "1")]⟩

/-- Raw entry inheriting from a base name that no entry carries. -/
def entGhost : RawSensor String :=
  ⟨"g", some "ghost", some "cmd", none, [], [("length", "5")], [], []⟩

/-- Concrete child entry: overrides the frame length and re-declares one
data field, declares no command/checksum of its own. -/
def entChild : RawSensor String :=
  ⟨"c", some "p", none, some "7", [], [("length", "9")], [], [("t", "new")]⟩

/-- Concrete parent entry with a command, a two-key frame, a checksum and
two data fields. -/
def entParent : RawSensor String :=
  ⟨"p", none, some "cmd", some "2", [], [("length", "5"), ("startByte", "AA")],
   [("eval", "e")], [("t", "old"), ("u", "u1")]⟩

/-- One-byte-frame descriptor whose checksum always mismatches: eval reads
the byte, compare is the constant 5. -/
def cfgMismatch : RunCfg :=
  { frameLength := 1
  , startByte := .noneMark
  , endByte := .noneMark
  , checksum := { eval := .idx "data" (.num 0), compare := .num 5 }
  , dataFields := [("v", .plain (.idx "data" (.num 0)))] }

/-- One-byte-frame descriptor whose checksum always passes (two identical
constants), extracting the byte as field v. -/
def cfgTrivial : RunCfg :=
  { frameLength := 1
  , startByte := .noneMark
  , endByte := .noneMark
  , checksum := { eval := .num 0, compare := .num 0 }
  , dataFields := [("v", .plain (.idx "data" (.num 0)))] }

end PolluSens

namespace PolluSens

/-- Unfolding lemma for one iteration of the scan loop with positive
fuel. -/
theorem scanLoop_succ (cfg : RunCfg) (fuel : Nat) (buffer queue : List Nat) :
    scanLoop cfg (fuel + 1) buffer queue =
      if cfg.frameLength ≤ buffer.length then
        if windowMatches cfg (buffer.take cfg.frameLength) then
          match handleFrame cfg queue (buffer.take cfg.frameLength) with
          | .error m => .threw m ⟨buffer.drop cfg.frameLength, queue⟩ []
          | .ok (true, q2, evs) =>
            (scanLoop cfg fuel (buffer.drop cfg.frameLength) q2).withEvents evs
          | .ok (false, q2, evs) =>
            (scanLoop cfg fuel (buffer.drop cfg.frameLength) q2).withEvents
              (evs ++ [Event.errorCb "Checksum failed"])
        else
          scanLoop cfg fuel (buffer.drop 1) queue
      else
        .ok ⟨buffer, queue⟩ [] :=
  rfl

/-- C5: after the disconnect path completes on a session
(`disconnectAndCleanup`, which runs the instance `disconnect` and then the
static cleanup), the periodic-command timer is cancelled, every pending
one-shot request is abandoned, the decode buffer is empty, and the
transport (port and reader) is released. -/
theorem disconnectAndCleanup_clears (s : Session) :
    (disconnectAndCleanup s).commandInterval = false
    ∧ (disconnectAndCleanup s).readQueue = []
    ∧ (disconnectAndCleanup s).buffer = []
    ∧ (disconnectAndCleanup s).portOpen = false
    ∧ (disconnectAndCleanup s).readerHeld = false :=
  ⟨rfl, rfl, rfl, rfl, rfl⟩

/-- C5 witness: teardown applied to a fully live session. -/
theorem disconnectAndCleanup_clears_witness :
    (disconnectAndCleanup ⟨true, true, true, [1, 2], [3], true, true, true⟩).commandInterval = false
    ∧ (disconnectAndCleanup ⟨true, true, true, [1, 2], [3], true, true, true⟩).readQueue = []
    ∧ (disconnectAndCleanup ⟨true, true, true, [1, 2], [3], true, true, true⟩).buffer = []
    ∧ (disconnectAndCleanup ⟨true, true, true, [1, 2], [3], true, true, true⟩).portOpen = false
    ∧ (disconnectAndCleanup ⟨true, true, true, [1, 2], [3], true, true, true⟩).readerHeld = false :=
  disconnectAndCleanup_clears ⟨true, true, true, [1, 2], [3], true, true, true⟩

/-- C2 counterexample: with the descriptor exactly as the claim words it
(formulas indexing `window`), the §8 input stream delivers no parsed
reading at all — the byte window is not in scope under the identifier
`window`, whose lookup faults — so the claimed delivery of temp = 16 for
the first frame is false. -/
theorem window_identifier_scenario_cex :
    deliveredReadings (runLoop cfgWindow ⟨[], []⟩ [streamC2]) = []
    ∧ evalExpr [("data", [0xAA, 0x10, 0, 0, 0x10])] (Expr.idx "window" (Expr.num 1)) =
        Except.error "window is not defined" := by
  constructor
  · rfl
  · rfl

/-- C2 as amended: the evaluator exposes the frame byte window to formulas
under the context key `data` (indexing `data[i]`), and with checksum eval
`data[4]`, compare `data[1]^data[2]^data[3]` and data temp = `data[1]`,
the §8 stream delivers temp = 16 for the first frame (and temp = 5 for the
second); the 0xFF byte between the frames is skipped by removing exactly
that single leading byte. -/
theorem data_identifier_scenario :
    runLoop cfgData ⟨[], []⟩ [streamC2] =
      ⟨⟨[], []⟩,
       [Event.dataCb [("temp", JSVal.num 16)], Event.dataCb [("temp", JSVal.num 5)]],
       LoopEnd.eos⟩
    ∧ evalExpr [("data", [0xAA, 0x10, 0, 0, 0x10])] (Expr.idx "data" (Expr.num 1)) =
        Except.ok (JSVal.num 16)
    ∧ scanLoop cfgData 6 [0xFF, 0xAA, 0x05, 0, 0, 0x05] [] =
        scanLoop cfgData 5 [0xAA, 0x05, 0, 0, 0x05] [] := by
  refine ⟨by decide, rfl, by decide⟩

/-- C1 counterexample: a start-matching frame whose checksum eval formula
throws does not leave the read loop running — the fault is caught by the
loop-level handler, reported as a read-loop error (not as a checksum
failure), and the loop terminates, so the second chunk is never
processed. -/
theorem readLoop_formulaFault_cex :
    runLoop cfgFault ⟨[], []⟩ [[0xAA, 0], [0xAA, 0]] =
      ⟨⟨[], []⟩, [Event.errorCb "Read loop error: oops is not defined"],
       LoopEnd.errored "oops is not defined"⟩ := by
  decide

/-- C1 as amended: for every frame whose markers match, if evaluating the
checksum eval formula, the checksum compare formula, or any field formula
throws (`handleFrame` faults), the exception propagates out of frame
handling into the read loop's catch-all, which reports a
"Read loop error: …" through the error callback and terminates the loop;
the fault is not treated as a checksum failure and subsequent chunks are
not processed. -/
theorem readLoop_formulaFault_terminates (cfg : RunCfg) (st : SessionState)
    (chunk : List Nat) (restChunks : List (List Nat)) (m : String)
    (hlen : cfg.frameLength ≤ (st.buffer ++ chunk).length)
    (hm : windowMatches cfg ((st.buffer ++ chunk).take cfg.frameLength) = true)
    (hfault : handleFrame cfg st.readQueue ((st.buffer ++ chunk).take cfg.frameLength) =
        Except.error m) :
    runLoop cfg st (chunk :: restChunks) =
      ⟨⟨(st.buffer ++ chunk).drop cfg.frameLength, st.readQueue⟩,
       [Event.errorCb ("Read loop error: " ++ m)], LoopEnd.errored m⟩ := by
  have hlen2 : cfg.frameLength ≤ st.buffer.length + chunk.length := by
    simpa using hlen
  simp [runLoop, scanLoop_succ, hlen2, hm, hfault]

/-- C1 witness: the amended theorem applied to the faulting descriptor on
one concrete start-matching frame. -/
theorem readLoop_formulaFault_terminates_witness :
    runLoop cfgFault ⟨[], []⟩ [[0xAA, 0]] =
      ⟨⟨[], []⟩, [Event.errorCb "Read loop error: oops is not defined"],
       LoopEnd.errored "oops is not defined"⟩ :=
  readLoop_formulaFault_terminates cfgFault ⟨[], []⟩ [0xAA, 0] [] "oops is not defined"
    (by decide) (by decide) rfl

/-- C4 counterexample: a resolution pass over a single entry whose base is
missing returns that raw entry unchanged, still carrying its
`inherits_from` reference, so a resolved descriptor can retain an
inheritance reference. -/
theorem resolve_missingBase_cex :
    loadConfigResolve [entGhost] = some ([entGhost], ["Base sensor not found: ghost"])
    ∧ entGhost.inherits_from = some "ghost" := by
  decide

/-- C4 as amended: a descriptor produced by a resolution step either went
through the merge path — and then carries no `inherits_from` field — or is
the raw entry returned unchanged (the no-inheritance case and the
missing-base and inheritance-cycle fallbacks), which retains whatever
`inherits_from` the entry had. -/
theorem resolveInheritance_result_shape {α : Type} (raws : List (RawSensor α))
    (fuel : Nat) (s : RawSensor α) (stack : List String) (r : RawSensor α)
    (warns : List String)
    (h : resolveInheritance raws fuel s stack = some (some r, warns)) :
    r.inherits_from = none ∨ r = s := by
  cases fuel with
  | zero => simp [resolveInheritance] at h
  | succ n =>
    unfold resolveInheritance at h
    split at h
    · simp at h
    · split at h
      · simp at h
        exact Or.inr h.1.symm
      · split at h
        · simp at h
          exact Or.inr h.1.symm
        · split at h
          · simp at h
            exact Or.inr h.1.symm
          · split at h
            · exact absurd h (by simp)
            · exact absurd h (by simp)
            · simp at h
              exact Or.inl (h.1 ▸ rfl)

/-- C4 witness: the shape theorem applied to the missing-base entry, whose
resolution returns the raw entry itself. -/
theorem resolveInheritance_result_shape_witness :
    entGhost.inherits_from = none ∨ entGhost = entGhost :=
  resolveInheritance_result_shape [entGhost] 2 entGhost [] entGhost
    ["Base sensor not found: ghost"] (by decide)

/-- Unfolding lemma for one step of the resolver with positive fuel. -/
theorem resolveInheritance_succ {α : Type} (raws : List (RawSensor α)) (fuel : Nat)
    (sensor : RawSensor α) (stack : List String) :
    resolveInheritance raws (fuel + 1) sensor stack =
      (if sensor.name = "" then some (none, [])
       else
         match sensor.inherits_from with
         | none => some (some sensor, [])
         | some baseName =>
           if sensor.name ∈ stack then
             some (some sensor, [circularWarn (stack ++ [sensor.name])])
           else
             match buildNameMap raws baseName with
             | none => some (some sensor, [missingBaseWarn baseName])
             | some base =>
               match resolveInheritance raws fuel base (stack ++ [sensor.name]) with
               | none => none
               | some (none, _) => none
               | some (some rb, warns) => some (some (mergeSensor sensor rb), warns)) :=
  rfl

/-- Lookup in a nil key list. -/
theorem jlookup_nil {α : Type} (k : String) : jlookup ([] : List (String × α)) k = none :=
  rfl

/-- Lookup in a cons key list. -/
theorem jlookup_cons {α : Type} (p : String × α) (l : List (String × α)) (k : String) :
    jlookup (p :: l) k = if p.1 == k then some p.2 else jlookup l k := by
  by_cases h : p.1 == k <;> simp [jlookup, List.find?_cons, h]

/-- Lookup distributes over append, preferring the left part. -/
theorem jlookup_append {α : Type} (l1 l2 : List (String × α)) (k : String) :
    jlookup (l1 ++ l2) k = (jlookup l1 k).or (jlookup l2 k) := by
  induction l1 with
  | nil => simp [jlookup_nil]
  | cons p l1 ih =>
    by_cases h : p.1 == k <;> simp [jlookup_cons, h, ih]

/-- Lookup in the overridden copy of the base that object spread builds. -/
theorem jlookup_overrideMap {α : Type} (b c : List (String × α)) (k : String) :
    jlookup (b.map (fun p => (p.1, (jlookup c p.1).getD p.2))) k =
      (jlookup b k).map (fun v => (jlookup c k).getD v) := by
  induction b with
  | nil => simp [jlookup_nil]
  | cons p b ih =>
    by_cases h : p.1 == k
    · have hk : p.1 = k := by simpa using h
      simp [jlookup_cons, h, hk]
    · simp [jlookup_cons, h, ih]

/-- Lookup through a filter whose predicate depends only on the key. -/
theorem jlookup_filter_key {α : Type} (f : String → Bool) (c : List (String × α)) (k : String) :
    jlookup (c.filter (fun p => f p.1)) k = if f k then jlookup c k else none := by
  induction c with
  | nil => simp [jlookup_nil]
  | cons p c ih =>
    by_cases hf : f p.1
    · by_cases hk : p.1 == k
      · have hk2 : p.1 = k := by simpa using hk
        simp [List.filter_cons, hf, jlookup_cons, hk, hk2 ▸ hf]
      · simp [List.filter_cons, hf, jlookup_cons, hk, ih]
    · by_cases hk : p.1 == k
      · have hk2 : p.1 = k := by simpa using hk
        simp [List.filter_cons, hf, ih, jlookup_cons, hk, hk2 ▸ hf]
      · simp [List.filter_cons, hf, ih, jlookup_cons, hk]

/-- Key-by-key description of the object spread merge: a key present in
the child takes the child value, otherwise the base value survives. -/
theorem jlookup_spreadMerge {α : Type} (b c : List (String × α)) (k : String) :
    jlookup (spreadMerge b c) k = (jlookup c k).or (jlookup b k) := by
  unfold spreadMerge
  rw [jlookup_append, jlookup_overrideMap, jlookup_filter_key (fun x => (jlookup b x).isNone)]
  cases hb : jlookup b k <;> cases hc : jlookup c k <;> simp [hb, hc]

/-- Spreading an absent (empty) child sub-object keeps the base
unchanged. -/
theorem spreadMerge_nil {α : Type} (b : List (String × α)) : spreadMerge b [] = b := by
  unfold spreadMerge
  simp [jlookup_nil]

/-- C3 counterexample: for the concrete cycle `a inherits_from b`,
`b inherits_from a`, entry `a` does not resolve to its own unmerged
fields — the resolved descriptor carries the data field `x` that only `b`
declares. -/
theorem resolveInheritance_cycle_cex :
    resolveInheritance [entCycleA, entCycleB] 3 entCycleA [] =
      some (some ⟨"a", none, none, none, [], [], [], [("x", "1")]⟩,
        ["Circular inheritance: a -> b -> a"])
    ∧ (⟨"a", none, none, none, [], [], [], [("x", "1")]⟩ : RawSensor String).data ≠
        entCycleA.data := by
  decide

/-- C3 as amended: for every pair of raw entries A and B inheriting from
each other (distinct truthy names, both reachable through the name map),
resolution of A terminates with the circular-inheritance diagnostic
`A -> B -> A`; the innermost revisit of A is returned raw, so A resolves
to A merged over (B merged over raw A) — taking fields from B where A
lacks them — rather than to its own unmerged fields. -/
theorem resolveInheritance_cycle_pair {α : Type} (raws : List (RawSensor α))
    (A B : RawSensor α) (fuel : Nat)
    (hA : A.name ≠ "") (hB : B.name ≠ "") (hne : A.name ≠ B.name)
    (hiA : A.inherits_from = some B.name) (hiB : B.inherits_from = some A.name)
    (lA : buildNameMap raws A.name = some A) (lB : buildNameMap raws B.name = some B) :
    resolveInheritance raws (fuel + 3) A [] =
      some (some (mergeSensor A (mergeSensor B A)),
        [circularWarn [A.name, B.name, A.name]]) := by
  have h3 : resolveInheritance raws (fuel + 1) A [A.name, B.name] =
      some (some A, [circularWarn [A.name, B.name, A.name]]) := by
    rw [resolveInheritance_succ]
    simp [hA, hiA]
  have h2 : resolveInheritance raws (fuel + 2) B [A.name] =
      some (some (mergeSensor B A), [circularWarn [A.name, B.name, A.name]]) := by
    rw [show fuel + 2 = (fuel + 1) + 1 from rfl, resolveInheritance_succ]
    simp [hB, hiB, lA, Ne.symm hne, h3]
  rw [show fuel + 3 = (fuel + 2) + 1 from rfl, resolveInheritance_succ]
  simp [hA, hiA, lB, h2]

/-- C3 witness: the cycle theorem applied to the concrete two-entry
cycle. -/
theorem resolveInheritance_cycle_pair_witness :
    resolveInheritance [entCycleA, entCycleB] 3 entCycleA [] =
      some (some (mergeSensor entCycleA (mergeSensor entCycleB entCycleA)),
        [circularWarn ["a", "b", "a"]]) :=
  resolveInheritance_cycle_pair [entCycleA, entCycleB] entCycleA entCycleB 0
    (by decide) (by decide) (by decide) rfl rfl (by decide) (by decide)

/-- C8: for an entry whose base resolves (the recursive resolution of the
base completes with result r and no cycle is hit at this entry), the
resolved descriptor is the shallow merge: `command` and `send_cmd_period`
take the entry value when present and otherwise the resolved base value;
`port`, `frame`, `checksum`, `data` merge key-by-key with the entry key
winning; a child with empty `checksum`/`data` sub-objects inherits the
base's unchanged, and a child re-declaring exactly one data field replaces
only that field and inherits every other data field intact. -/
theorem resolveInheritance_merge_step {α : Type} (raws : List (RawSensor α))
    (fuel : Nat) (s base r : RawSensor α) (warns : List String) (bn : String)
    (hname : s.name ≠ "") (hinh : s.inherits_from = some bn)
    (hlook : buildNameMap raws bn = some base)
    (hres : resolveInheritance raws fuel base [s.name] = some (some r, warns)) :
    resolveInheritance raws (fuel + 1) s [] = some (some (mergeSensor s r), warns)
    ∧ (mergeSensor s r).command = s.command.or r.command
    ∧ (mergeSensor s r).send_cmd_period = s.send_cmd_period.or r.send_cmd_period
    ∧ (∀ k, jlookup (mergeSensor s r).port k = (jlookup s.port k).or (jlookup r.port k))
    ∧ (∀ k, jlookup (mergeSensor s r).frame k = (jlookup s.frame k).or (jlookup r.frame k))
    ∧ (∀ k, jlookup (mergeSensor s r).checksum k =
        (jlookup s.checksum k).or (jlookup r.checksum k))
    ∧ (∀ k, jlookup (mergeSensor s r).data k = (jlookup s.data k).or (jlookup r.data k))
    ∧ (s.checksum = [] → (mergeSensor s r).checksum = r.checksum)
    ∧ (s.data = [] → (mergeSensor s r).data = r.data)
    ∧ (∀ k0 v0, s.data = [(k0, v0)] →
        jlookup (mergeSensor s r).data k0 = some v0
        ∧ ∀ k2, k2 ≠ k0 → jlookup (mergeSensor s r).data k2 = jlookup r.data k2) := by
  refine ⟨?_, rfl, rfl, ?_, ?_, ?_, ?_, ?_, ?_, ?_⟩
  · rw [resolveInheritance_succ]
    simp [hname, hinh, hlook, hres]
  · intro k; exact jlookup_spreadMerge r.port s.port k
  · intro k; exact jlookup_spreadMerge r.frame s.frame k
  · intro k; exact jlookup_spreadMerge r.checksum s.checksum k
  · intro k; exact jlookup_spreadMerge r.data s.data k
  · intro h
    show spreadMerge r.checksum s.checksum = r.checksum
    rw [h, spreadMerge_nil]
  · intro h
    show spreadMerge r.data s.data = r.data
    rw [h, spreadMerge_nil]
  · intro k0 v0 h
    constructor
    · rw [show (mergeSensor s r).data = spreadMerge r.data s.data from rfl,
        jlookup_spreadMerge, h]
      simp [jlookup_cons]
    · intro k2 hk2
      rw [show (mergeSensor s r).data = spreadMerge r.data s.data from rfl,
        jlookup_spreadMerge, h]
      have : jlookup [(k0, v0)] k2 = none := by
        simp [jlookup_cons, jlookup_nil]
        exact fun h2 => absurd h2.symm hk2
      rw [this]
      simp

/-- C8 witness: the merge theorem applied to the concrete child/parent
pair, whose resolution produces the merged literal. -/
theorem resolveInheritance_merge_step_witness :
    resolveInheritance [entChild, entParent] 2 entChild [] =
      some (some (mergeSensor entChild entParent), []) :=
  (resolveInheritance_merge_step [entChild, entParent] 1 entChild entParent entParent [] "p"
    (by decide) rfl (by decide) (by decide)).1

/-- Helper: a run of leading candidate windows that all fail a marker
check is discarded one byte per iteration, one unit of fuel each. -/
theorem scanLoop_skip_garbage (cfg : RunCfg) (queue : List Nat) :
    ∀ (g tailB : List Nat) (fuel : Nat),
      cfg.frameLength ≤ tailB.length →
      (∀ i, i < g.length →
        windowMatches cfg (((g ++ tailB).drop i).take cfg.frameLength) = false) →
      scanLoop cfg (fuel + g.length) (g ++ tailB) queue = scanLoop cfg fuel tailB queue := by
  intro g
  induction g with
  | nil => intro tailB fuel _ _; rfl
  | cons x g ih =>
    intro tailB fuel hlen hg
    have h0 := hg 0 (by simp)
    rw [List.drop_zero] at h0
    have hlen2 : cfg.frameLength ≤ ((x :: g) ++ tailB).length := by
      simp [List.length_append]
      omega
    have hdrop1 : ((x :: g) ++ tailB).drop 1 = g ++ tailB := by simp
    have hstep : scanLoop cfg ((fuel + g.length) + 1) ((x :: g) ++ tailB) queue =
        scanLoop cfg (fuel + g.length) (g ++ tailB) queue := by
      rw [scanLoop_succ, if_pos hlen2]
      rw [if_neg (by rw [h0]; simp)]
      rw [hdrop1]
    have hrec := ih tailB fuel hlen (fun i hi => by
      have := hg (i + 1) (by simpa using Nat.succ_lt_succ hi)
      simpa using this)
    calc scanLoop cfg (fuel + (x :: g).length) ((x :: g) ++ tailB) queue
        = scanLoop cfg ((fuel + g.length) + 1) ((x :: g) ++ tailB) queue := rfl
      _ = scanLoop cfg (fuel + g.length) (g ++ tailB) queue := hstep
      _ = scanLoop cfg fuel tailB queue := hrec

/-- C6: for a stream of K garbage bytes followed by a marker-matching
frame, where every candidate window that starts inside the garbage fails a
marker check, the scan (i) removes exactly one leading byte per failing
window, (ii) after exactly K such one-byte discards extracts the frame
itself (handing it to `handleFrame` with the buffer already advanced past
it), and (iii) never attempts an extraction while the buffer holds fewer
than `frame.length` bytes. -/
theorem scanLoop_resync (cfg : RunCfg) (queue : List Nat) (g f : List Nat) (fuel : Nat)
    (hf : f.length = cfg.frameLength)
    (hg : ∀ i, i < g.length →
      windowMatches cfg (((g ++ f).drop i).take cfg.frameLength) = false)
    (hm : windowMatches cfg f = true) :
    (∀ i, i < g.length →
      scanLoop cfg (fuel + 1) ((g ++ f).drop i) queue =
        scanLoop cfg fuel ((g ++ f).drop (i + 1)) queue)
    ∧ scanLoop cfg (fuel + 1 + g.length) (g ++ f) queue =
        (match handleFrame cfg queue f with
         | .error m => ScanResult.threw m ⟨[], queue⟩ []
         | .ok (true, q2, evs) => (scanLoop cfg fuel [] q2).withEvents evs
         | .ok (false, q2, evs) =>
             (scanLoop cfg fuel [] q2).withEvents (evs ++ [Event.errorCb "Checksum failed"]))
    ∧ (∀ (b q : List Nat), b.length < cfg.frameLength →
        scanLoop cfg (fuel + 1) b q = ScanResult.ok ⟨b, q⟩ []) := by
  refine ⟨?_, ?_, ?_⟩
  · intro i hi
    have hlen2 : cfg.frameLength ≤ ((g ++ f).drop i).length := by
      simp [List.length_drop, List.length_append]
      omega
    rw [scanLoop_succ, if_pos hlen2]
    rw [if_neg (by rw [hg i hi]; simp)]
    rw [List.drop_drop]
  · have hlenf : cfg.frameLength ≤ f.length := le_of_eq hf.symm
    have hskip := scanLoop_skip_garbage cfg queue g f (fuel + 1) hlenf hg
    rw [show fuel + 1 + g.length = (fuel + 1) + g.length from rfl, hskip]
    rw [scanLoop_succ, if_pos hlenf]
    rw [← hf, List.take_length, List.drop_length]
    rw [if_pos hm]
  · intro b q hb
    rw [scanLoop_succ, if_neg (Nat.not_le.mpr hb)]

/-- C6 witness: two garbage bytes before a valid frame of `cfgData` are
discarded and the frame is delivered. -/
theorem scanLoop_resync_witness :
    scanLoop cfgData 4 ([1, 2] ++ [0xAA, 5, 0, 0, 5]) [] =
      ScanResult.ok ⟨[], []⟩ [Event.dataCb [("temp", JSVal.num 5)]] :=
  (scanLoop_resync cfgData [] [1, 2] [0xAA, 5, 0, 0, 5] 1 rfl
    (by decide) (by decide)).2.1

/-- C7: a marker-matching candidate window on which both checksum formulas
evaluate normally is accepted exactly when the two results are equal; on a
mismatch `handleFrame` rejects without touching the request queue, a
"Checksum failed" error is reported, and the scan continues on the bytes
after the window — the window's `frame.length` bytes having already been
removed from the buffer. -/
theorem scanLoop_checksum_acceptance (cfg : RunCfg) (queue window rest : List Nat)
    (a b : JSVal) (parsed : List (String × JSVal)) (fuel : Nat)
    (hw : window.length = cfg.frameLength)
    (hm : windowMatches cfg window = true)
    (ha : evalExpr [("data", window)] cfg.checksum.eval = Except.ok a)
    (hb : evalExpr [("data", window)] cfg.checksum.compare = Except.ok b)
    (hp : parseFields cfg window = Except.ok parsed) :
    ((∃ q2 evs, handleFrame cfg queue window = Except.ok (true, q2, evs)) ↔ a = b)
    ∧ (a ≠ b →
        handleFrame cfg queue window = Except.ok (false, queue, [])
        ∧ scanLoop cfg (fuel + 1) (window ++ rest) queue =
            (scanLoop cfg fuel rest queue).withEvents [Event.errorCb "Checksum failed"]) := by
  have hle : cfg.frameLength ≤ (window ++ rest).length := by
    rw [List.length_append, ← hw]
    omega
  have htake : (window ++ rest).take cfg.frameLength = window := by
    rw [← hw, List.take_left]
  have hdrop : (window ++ rest).drop cfg.frameLength = rest := by
    rw [← hw, List.drop_left]
  have hif : handleFrame cfg queue window =
      (if a = b then
        (do
          let parsed ← parseFields cfg window
          match queue with
          | [] => pure (true, [], [Event.dataCb parsed])
          | r :: rs => pure (true, rs, [Event.resolved r parsed, Event.dataCb parsed]))
       else pure (false, queue, [])) := by
    unfold handleFrame
    rw [ha, hb]
    rfl
  constructor
  · constructor
    · rintro ⟨q2, evs, hh⟩
      by_contra hab
      rw [hif, if_neg hab] at hh
      simp [pure, Except.pure] at hh
    · intro hab
      rw [hif, if_pos hab, hp]
      cases queue with
      | nil => exact ⟨[], [Event.dataCb parsed], rfl⟩
      | cons r rs => exact ⟨rs, [Event.resolved r parsed, Event.dataCb parsed], rfl⟩
  · intro hab
    have hh : handleFrame cfg queue window = Except.ok (false, queue, []) := by
      rw [hif, if_neg hab]
      rfl
    refine ⟨hh, ?_⟩
    rw [scanLoop_succ, if_pos hle, htake, if_pos hm, hh, hdrop]
    simp

/-- C7 witness: the acceptance theorem applied to a one-byte window whose
eval result 7 differs from the compare constant 5. -/
theorem scanLoop_checksum_acceptance_witness :
    ((∃ q2 evs, handleFrame cfgMismatch [] [7] = Except.ok (true, q2, evs)) ↔
      JSVal.num 7 = JSVal.num 5)
    ∧ (JSVal.num 7 ≠ JSVal.num 5 →
        handleFrame cfgMismatch [] [7] = Except.ok (false, [], [])
        ∧ scanLoop cfgMismatch 2 ([7] ++ []) [] =
            (scanLoop cfgMismatch 1 [] []).withEvents [Event.errorCb "Checksum failed"]) :=
  scanLoop_checksum_acceptance cfgMismatch [] [7] [] (JSVal.num 7) (JSVal.num 5)
    [("v", JSVal.num 7)] 1 rfl (by decide) rfl rfl rfl

/-- Helper: prepending events never turns a completed or thrown scan
outcome into fuel exhaustion. -/
theorem withEvents_ne_fuelOut (evs : List Event) (r : ScanResult)
    (h : ∀ st2 e2, r ≠ ScanResult.fuelOut st2 e2) (st : SessionState) (e : List Event) :
    r.withEvents evs ≠ ScanResult.fuelOut st e := by
  cases r with
  | ok st2 e2 => simp [ScanResult.withEvents]
  | threw m st2 e2 => simp [ScanResult.withEvents]
  | fuelOut st2 e2 => exact absurd rfl (h st2 e2)

/-- C10: with `frame.length ≥ 1`, every iteration of the inner scan loop
on a buffer of at least `frame.length` bytes strictly shrinks the buffer —
removing exactly `frame.length` bytes when both markers match and exactly
one byte otherwise — and consequently the scan of any finite buffer
completes within `buffer.length` iterations (fuel `buffer.length + 1` is
never exhausted). -/
theorem scanLoop_terminates (cfg : RunCfg) (hL : 1 ≤ cfg.frameLength) :
    (∀ (buffer queue : List Nat) (fuel : Nat), cfg.frameLength ≤ buffer.length →
      (windowMatches cfg (buffer.take cfg.frameLength) = true →
        scanLoop cfg (fuel + 1) buffer queue =
          (match handleFrame cfg queue (buffer.take cfg.frameLength) with
           | .error m => ScanResult.threw m ⟨buffer.drop cfg.frameLength, queue⟩ []
           | .ok (true, q2, evs) =>
               (scanLoop cfg fuel (buffer.drop cfg.frameLength) q2).withEvents evs
           | .ok (false, q2, evs) =>
               (scanLoop cfg fuel (buffer.drop cfg.frameLength) q2).withEvents
                 (evs ++ [Event.errorCb "Checksum failed"]))
        ∧ (buffer.drop cfg.frameLength).length = buffer.length - cfg.frameLength
        ∧ (buffer.drop cfg.frameLength).length < buffer.length)
      ∧ (windowMatches cfg (buffer.take cfg.frameLength) = false →
        scanLoop cfg (fuel + 1) buffer queue = scanLoop cfg fuel (buffer.drop 1) queue
        ∧ (buffer.drop 1).length = buffer.length - 1
        ∧ (buffer.drop 1).length < buffer.length))
    ∧ (∀ (fuel : Nat) (buffer queue : List Nat), buffer.length < fuel →
        ∀ st evs, scanLoop cfg fuel buffer queue ≠ ScanResult.fuelOut st evs) := by
  constructor
  · intro buffer queue fuel hble
    constructor
    · intro hmt
      refine ⟨?_, ?_, ?_⟩
      · rw [scanLoop_succ, if_pos hble, if_pos hmt]
      · rw [List.length_drop]
      · rw [List.length_drop]; omega
    · intro hmf
      refine ⟨?_, ?_, ?_⟩
      · rw [scanLoop_succ, if_pos hble, if_neg (by rw [hmf]; simp)]
      · rw [List.length_drop]
      · rw [List.length_drop]; omega
  · intro fuel
    induction fuel with
    | zero => intro buffer queue h; exact absurd h (Nat.not_lt_zero _)
    | succ n ih =>
      intro buffer queue h st evs
      rw [scanLoop_succ]
      by_cases hble : cfg.frameLength ≤ buffer.length
      · rw [if_pos hble]
        by_cases hmt : windowMatches cfg (buffer.take cfg.frameLength) = true
        · rw [if_pos hmt]
          have hlt : (buffer.drop cfg.frameLength).length < n := by
            rw [List.length_drop]; omega
          cases hh : handleFrame cfg queue (buffer.take cfg.frameLength) with
          | error m => simp
          | ok t =>
            obtain ⟨v, q2, evs2⟩ := t
            cases v
            · exact withEvents_ne_fuelOut _ _
                (ih (buffer.drop cfg.frameLength) q2 hlt) st evs
            · exact withEvents_ne_fuelOut _ _
                (ih (buffer.drop cfg.frameLength) q2 hlt) st evs
        · rw [if_neg hmt]
          have hlt : (buffer.drop 1).length < n := by
            rw [List.length_drop]; omega
          exact ih (buffer.drop 1) queue hlt st evs
      · rw [if_neg hble]
        simp

/-- C10 witness: the no-fuel-out part applied to the full §8 stream. -/
theorem scanLoop_terminates_witness :
    scanLoop cfgData 12 streamC2 [] ≠ ScanResult.fuelOut ⟨[], []⟩ [] :=
  (scanLoop_terminates cfgData (by decide)).2 12 streamC2 [] (by decide) ⟨[], []⟩ []

/-- C9: `readNext` registers requests at the back of the queue, and a
buffer consisting of consecutive valid frames (marker-matching, checksum
passing, extraction succeeding) is delivered strictly FIFO: the Nth frame
resolves the Nth outstanding request with its parsed mapping (when one is
pending) and then unconditionally invokes the data callback with the same
mapping, in frame order. -/
theorem scanLoop_fifo (cfg : RunCfg) (hL : 1 ≤ cfg.frameLength) :
    (∀ (st : SessionState) (reqId : Nat),
        (readNext st reqId).readQueue = st.readQueue ++ [reqId])
    ∧ ∀ (fps : List (List Nat × List (String × JSVal))) (queue : List Nat) (fuel : Nat),
        (∀ p ∈ fps, p.1.length = cfg.frameLength ∧ windowMatches cfg p.1 = true
          ∧ checksumPasses cfg p.1 = true ∧ parseFields cfg p.1 = Except.ok p.2) →
        (fps.map Prod.fst).flatten.length < fuel →
        scanLoop cfg fuel (fps.map Prod.fst).flatten queue =
          ScanResult.ok ⟨[], queue.drop fps.length⟩
            (fifoEvents queue (fps.map Prod.snd)) := by
  refine ⟨fun st reqId => rfl, ?_⟩
  intro fps
  induction fps with
  | nil =>
    intro queue fuel _ hfuel
    cases fuel with
    | zero => exact absurd hfuel (Nat.not_lt_zero _)
    | succ k =>
      rw [scanLoop_succ]
      rw [if_neg (by simp; omega)]
      simp [fifoEvents]
  | cons fp fps ih =>
    obtain ⟨f, p⟩ := fp
    intro queue fuel hgood hfuel
    obtain ⟨h1, h2, h3, h4⟩ := hgood (f, p) (by simp)
    dsimp only at h1 h2 h3 h4
    cases fuel with
    | zero => exact absurd hfuel (Nat.not_lt_zero _)
    | succ k =>
      have hbuf : (((f, p) :: fps).map Prod.fst).flatten = f ++ (fps.map Prod.fst).flatten := by
        simp
      rw [hbuf] at hfuel ⊢
      rw [List.length_append] at hfuel
      have hlen2 : cfg.frameLength ≤ (f ++ (fps.map Prod.fst).flatten).length := by
        rw [List.length_append]
        omega
      have htake : (f ++ (fps.map Prod.fst).flatten).take cfg.frameLength = f := by
        rw [← h1, List.take_left]
      have hdrop : (f ++ (fps.map Prod.fst).flatten).drop cfg.frameLength =
          (fps.map Prod.fst).flatten := by
        rw [← h1, List.drop_left]
      obtain ⟨-, hgood2⟩ : True ∧ ∀ q ∈ fps, q.1.length = cfg.frameLength
          ∧ windowMatches cfg q.1 = true ∧ checksumPasses cfg q.1 = true
          ∧ parseFields cfg q.1 = Except.ok q.2 :=
        ⟨trivial, fun q hq => hgood q (List.mem_cons_of_mem _ hq)⟩
      have hkfuel : (fps.map Prod.fst).flatten.length < k := by omega
      obtain ⟨aa, ha, hbb⟩ : ∃ aa, evalExpr [("data", f)] cfg.checksum.eval = Except.ok aa
          ∧ evalExpr [("data", f)] cfg.checksum.compare = Except.ok aa := by
        unfold checksumPasses at h3
        cases hea : evalExpr [("data", f)] cfg.checksum.eval with
        | error m => rw [hea] at h3; simp at h3
        | ok va =>
          cases heb : evalExpr [("data", f)] cfg.checksum.compare with
          | error m => rw [hea, heb] at h3; simp at h3
          | ok vb =>
            rw [hea, heb] at h3
            simp at h3
            subst h3
            exact ⟨va, rfl, rfl⟩
      cases queue with
      | nil =>
        have hhf : handleFrame cfg [] f = Except.ok (true, [], [Event.dataCb p]) := by
          have hif : handleFrame cfg [] f =
              (if aa = aa then
                (do
                  let parsed ← parseFields cfg f
                  (pure (true, [], [Event.dataCb parsed]) : Except String _))
               else pure (false, [], [])) := by
            unfold handleFrame
            rw [ha, hbb]
            rfl
          rw [hif, if_pos rfl, h4]
          rfl
        rw [scanLoop_succ, if_pos hlen2, htake, if_pos h2, hhf, hdrop]
        have hih := ih [] k hgood2 hkfuel
        simp only []
        rw [hih]
        simp [fifoEvents, ScanResult.withEvents]
      | cons r rs =>
        have hhf : handleFrame cfg (r :: rs) f =
            Except.ok (true, rs, [Event.resolved r p, Event.dataCb p]) := by
          have hif : handleFrame cfg (r :: rs) f =
              (if aa = aa then
                (do
                  let parsed ← parseFields cfg f
                  (pure (true, rs, [Event.resolved r parsed, Event.dataCb parsed]) :
                    Except String _))
               else pure (false, r :: rs, [])) := by
            unfold handleFrame
            rw [ha, hbb]
            rfl
          rw [hif, if_pos rfl, h4]
          rfl
        rw [scanLoop_succ, if_pos hlen2, htake, if_pos h2, hhf, hdrop]
        have hih := ih rs k hgood2 hkfuel
        simp only []
        rw [hih]
        simp [fifoEvents, ScanResult.withEvents]

/-- C9 witness: two pending requests 1 and 2 and two consecutive valid
one-byte frames, delivered strictly in order. -/
theorem scanLoop_fifo_witness :
    scanLoop cfgTrivial 3 [7, 9] [1, 2] =
      ScanResult.ok ⟨[], []⟩
        [Event.resolved 1 [("v", JSVal.num 7)], Event.dataCb [("v", JSVal.num 7)],
         Event.resolved 2 [("v", JSVal.num 9)], Event.dataCb [("v", JSVal.num 9)]] :=
  (scanLoop_fifo cfgTrivial (by decide)).2
    [([7], [("v", JSVal.num 7)]), ([9], [("v", JSVal.num 9)])] [1, 2] 3
    (by
      intro p hp
      fin_cases hp
      · exact ⟨rfl, rfl, rfl, rfl⟩
      · exact ⟨rfl, rfl, rfl, rfl⟩)
    (by decide)

end PolluSens
